import Mathlib

/-!
Verification of the result-classification and report-synthesis core of the
AGS validator web application (`app/ags.py`).

Text is modelled as `List Char`.  Reading a file under the permissive
single-byte ISO-8859-1 decoding maps each byte bijectively to the character
with the same code point, so raw file contents are modelled as the decoded
character list.  `open(filename, encoding='ISO-8859-1')` is a text-mode
stream with the default `newline=None`, so universal-newline translation
rewrites `\r\n` and lone `\r` to `\n` before `read(n)` counts its `n`
characters; `translateNewlines` models that translation, and the
Encoding-Error Locator operates on the translated stream.

Python faults (`TypeError` from `re.match(pattern, None)`, `AttributeError`
from `m.group(1)` when `m is None`) are modelled with `Except Fault`.
-/

namespace Ags

abbrev Text := List Char

/-- Outcome of the external `ags4_cli` subprocess: exit code and captured
output streams (`subprocess.run(..., capture_output=True, text=True)`). -/
structure ProcessOutcome where
  returncode : Int
  stdout : Text
  stderr : Text

/-- UTC wall-clock instant supplied by the clock collaborator
(`dt.datetime.now(tz=dt.timezone.utc)`). -/
structure UTCTime where
  year : Nat
  month : Nat
  day : Nat
  hour : Nat
  minute : Nat
  second : Nat

/-- Python runtime faults that the classification code can raise. -/
inductive Fault where
  /-- `re.match(pattern, None)` raises `TypeError`. -/
  | typeError : Fault
  /-- `None.group(1)` raises `AttributeError`. -/
  | attributeError : Fault
deriving DecidableEq

/-- Decimal rendering of a natural number, as produced by Python for a
non-negative integer-valued float under the `0.0f` format or an `int` in an
f-string. -/
def natRepr (n : Nat) : Text := (Nat.repr n).toList

/-- `'%02d'`-style zero padding used by `strftime` fields. -/
def zeroPad (w : Nat) (s : Text) : Text := List.replicate (w - s.length) '0' ++ s

/-- `strftime('%Y-%m-%d %H:%M:%S')` on a UTC instant. -/
def strftime (t : UTCTime) : Text :=
  zeroPad 4 (natRepr t.year) ++ "-".toList ++ zeroPad 2 (natRepr t.month) ++ "-".toList
    ++ zeroPad 2 (natRepr t.day) ++ " ".toList ++ zeroPad 2 (natRepr t.hour) ++ ":".toList
    ++ zeroPad 2 (natRepr t.minute) ++ ":".toList ++ zeroPad 2 (natRepr t.second)

/-- The integer displayed for `filename.stat().st_size / 1024` under the
`{filesize:0.0f}` format: the quotient rounded to the nearest whole number,
ties going to the even neighbour (IEEE-754 formatting of the exact binary
value `bytes / 2^10`). -/
def formatFilesizeKB (bytes : Nat) : Nat :=
  let q := bytes / 1024
  let r := bytes % 1024
  if r < 512 then q
  else if 512 < r then q + 1
  else if q % 2 = 0 then q else q + 1

/-- `RESPONSE_TEMPLATE.format(...)`: the dedented, stripped template
`File Name: \t {filename}\nFile Size: \t {filesize:0.0f} kB\nTime (UTC): \t {time_utc}\n\n{message}`. -/
def render (filename : Text) (bytes : Nat) (t : UTCTime) (message : Text) : Text :=
  "File Name: \t ".toList ++ filename ++ "\nFile Size: \t ".toList
    ++ natRepr (formatFilesizeKB bytes) ++ " kB\nTime (UTC): \t ".toList
    ++ strftime t ++ "\n\n".toList ++ message

/-- Python `s.startswith(p)`. -/
def startsWithText (p l : Text) : Bool := p.isPrefixOf l

/-- Python substring containment `pat in s`. -/
def containsText (s pat : Text) : Bool :=
  (List.range (s.length + 1)).any (fun i => pat.isPrefixOf (s.drop i))

/-- `upto.split('\n')[-1]`: the part of the text after the last newline,
computed by a left fold that restarts at each newline exactly as the
split-then-take-last does. -/
def lastLineAux (acc : Text) : Text → Text
  | [] => acc
  | c :: cs => if c = '\n' then lastLineAux [] cs else lastLineAux (acc ++ [c]) cs

/-- The final element of `text.split('\n')`. -/
def lastLine (l : Text) : Text := lastLineAux [] l

/-- Result of `line_of_error`: `(char_no, line_no, line, char)`. -/
structure ErrorLocation where
  charNo : Nat
  lineNo : Nat
  line : Text
  char : Text
deriving DecidableEq

/-- Universal-newline translation performed by a Python text-mode stream
with the default `newline=None`: `\r\n` and lone `\r` become `\n`, and
`f.read(n)` returns the first `n` characters of the translated stream. -/
def translateNewlines : Text → Text
  | [] => []
  | [c] => if c = '\r' then ['\n'] else [c]
  | c :: d :: cs =>
    if c = '\r' then
      if d = '\n' then '\n' :: translateNewlines cs
      else '\n' :: translateNewlines (d :: cs)
    else c :: translateNewlines (d :: cs)

/-- `line_of_error(filename, char_no)` from `app/ags.py`: re-read the file
under ISO-8859-1 in text mode (so `\r\n` and `\r` are translated to `\n`
before characters are counted), take `char_no` characters of the translated
stream, count newlines for the line number, keep the tail of the current
line, and read one further translated character. -/
def line_of_error (file : Text) (charNo : Nat) : ErrorLocation :=
  let translated := translateNewlines file
  let upto := translated.take charNo
  let line := lastLine upto
  { charNo := line.length + 1
    lineNo := upto.count '\n' + 1
    line := line
    char := (translated.drop charNo).take 1 }

/-- Value of a decimal digit run. -/
def digitsToNat (ds : Text) : Nat := ds.foldl (fun n c => n * 10 + (c.toNat - 48)) 0

/-- One attempted match of the literal-and-group part of the pattern
`.*in position (\d+):.*` at index `i` of `s`: the literal `"in position "`
followed by a maximal non-empty digit run followed by `:`.  (Backtracking a
shorter digit run can never succeed because the next character would then be
a digit, not `:`.) -/
def matchPosAt (s : Text) (i : Nat) : Option Nat :=
  let rest := s.drop i
  if ("in position ".toList).isPrefixOf rest then
    let afterLit := rest.drop 12
    let ds := afterLit.takeWhile (fun c => c.isDigit)
    if (!ds.isEmpty) && ((afterLit.drop ds.length).head? == some ':') then
      some (digitsToNat ds)
    else none
  else none

/-- Within one newline-free segment, the occurrence the greedy leading `.*`
selects: the last index at which `matchPosAt` succeeds. -/
def lastPosMatch (line : Text) : Option Nat :=
  (List.range (line.length + 1)).foldl
    (fun acc i =>
      match matchPosAt line i with
      | some v => some v
      | none => acc)
    none

/-- `re.search(r'.*in position (\d+):.*', s)` group 1 as a number: `.` never
matches a newline, so the match lives inside a single line; `re.search`
returns the leftmost match, hence the first line containing a valid
occurrence, and the greedy `.*` picks the last occurrence in that line. -/
def searchPosition (s : Text) : Option Nat :=
  (s.splitOn '\n').findSome? lastPosMatch

/-- The f-string body built by `get_unicode_message` from the
`line_of_error` result for offset `k`. -/
def unicodeMessageBody (file : Text) (k : Nat) : Text :=
  "ERROR: Unreadable character \"".toList ++ (line_of_error file k).char
    ++ "\" at position ".toList ++ natRepr (line_of_error file k).charNo
    ++ " on line: ".toList ++ natRepr (line_of_error file k).lineNo
    ++ "\nStarting: ".toList ++ (line_of_error file k).line ++ "\n\n".toList

/-- `get_unicode_message(stderr, filename)` from `app/ags.py`.  Returns
`none` for the `AttributeError` raised by `m.group(1)` when the regex search
found no match. -/
def get_unicode_message (stderrText : Text) (file : Text) : Option Text :=
  match searchPosition stderrText with
  | none => none
  | some k => some (unicodeMessageBody file k)

/-- `re.match(r'\d+ error\(s\) found in file', log)` as a boolean: a
non-empty digit run at the start of `log` immediately followed by the
literal `" error(s) found in file"`. -/
def errorCountMatch (l : Text) : Bool :=
  let ds := l.takeWhile (fun c => c.isDigit)
  (!ds.isEmpty) && (" error(s) found in file".toList).isPrefixOf (l.drop ds.length)

/-- The branch selection of `validate` in `app/ags.py`, returning
`some message` when `use_template` is set to `True` with the given message,
`none` when `use_template` is `False` (raw log passed through), and a
`Fault` when the Python code would raise: `AttributeError` inside
`get_unicode_message`, or `TypeError` from `re.match` on an absent log. -/
def classify (file : Text) (res : ProcessOutcome) (log : Option Text) :
    Except Fault (Option Text) :=
  if res.returncode ≠ 0 then
    if containsText res.stderr ("UnicodeDecodeError:".toList) then
      match get_unicode_message res.stderr file with
      | some msg => .ok (some msg)
      | none => .error Fault.attributeError
    else .ok (some ("ERROR: ".toList ++ res.stderr))
  else if startsWithText ("ERROR: ".toList) res.stdout then
    .ok (some res.stdout)
  else
    match log with
    | none => .error Fault.typeError
    | some lg => if errorCountMatch lg then .ok (some lg) else .ok none

/-- `validate(filename)` from `app/ags.py`, with the subprocess outcome, the
sidecar log contents, the input file's decoded bytes, its name and byte
size, and the clock instant supplied as explicit inputs. -/
def validate (file filename : Text) (bytes : Nat) (t : UTCTime)
    (res : ProcessOutcome) (log : Option Text) : Except Fault Text :=
  match classify file res log with
  | .error e => .error e
  | .ok (some msg) => .ok (render filename bytes t msg)
  | .ok none => .ok (log.getD [])

/-- `log_is_valid(log)` from `app/ags.py`. -/
def log_is_valid (log : Text) : Bool := containsText log ("All checks passed!".toList)

/-- `'.ags' if filename.suffix == '.xlsx' else '.xlsx'`. -/
def oppositeExt (suffix : Text) : Text :=
  if suffix = ".xlsx".toList then ".ags".toList else ".xlsx".toList

/-- Result of `convert`: the returned output path (name), the returned log
text, and whether `converted_file.unlink(missing_ok=True)` was invoked. -/
structure ConvertResult where
  outPath : Option Text
  log : Text
  deleted : Bool
deriving DecidableEq

/-- `convert(filename, results_dir)` from `app/ags.py`, with the input
file's stem and suffix, its byte size, the clock instant and the subprocess
outcome supplied as explicit inputs.  Path handling is reduced to file
names: the converted file is `stem + new_extension` inside `results_dir`. -/
def convert (stem suffix : Text) (bytes : Nat) (t : UTCTime)
    (res : ProcessOutcome) : ConvertResult :=
  let newExtension := oppositeExt suffix
  let convertedName := stem ++ newExtension
  let filename := stem ++ suffix
  if res.returncode ≠ 0 then
    { outPath := none
      log := render filename bytes t ("ERROR: ".toList ++ res.stderr)
      deleted := true }
  else if startsWithText ("ERROR: ".toList) res.stdout then
    { outPath := none
      log := render filename bytes t res.stdout
      deleted := true }
  else
    { outPath := some convertedName
      log := render filename bytes t
        ("SUCCESS: ".toList ++ filename ++ " converted to ".toList ++ convertedName)
      deleted := false }

lemma lastLineAux_nil (acc : Text) : lastLineAux acc [] = acc := rfl

lemma lastLineAux_newline (acc : Text) (cs : Text) :
    lastLineAux acc ('\n' :: cs) = lastLineAux [] cs := by
  simp [lastLineAux]

lemma lastLineAux_other (acc : Text) (c : Char) (cs : Text) (hc : c ≠ '\n') :
    lastLineAux acc (c :: cs) = lastLineAux (acc ++ [c]) cs := by
  simp [lastLineAux, hc]

/-- What `split('\n')[-1]` returns: the text decomposes as a prefix ending in
a newline (or empty) followed by the newline-free result. -/
lemma lastLineAux_split (l : Text) : ∀ acc, '\n' ∉ acc →
    ∃ pre, acc ++ l = pre ++ lastLineAux acc l ∧ '\n' ∉ lastLineAux acc l ∧
      (pre = [] ∨ ∃ ys, pre = ys ++ ['\n']) := by
  induction l with
  | nil =>
    intro acc h
    exact ⟨[], by simp [lastLineAux_nil], h, Or.inl rfl⟩
  | cons c cs ih =>
    intro acc h
    by_cases hc : c = '\n'
    · subst hc
      obtain ⟨pre, h1, h2, h3⟩ := ih [] (by simp)
      have h1' : cs = pre ++ lastLineAux [] cs := by simpa using h1
      refine ⟨acc ++ '\n' :: pre, ?_, ?_, ?_⟩
      · rw [lastLineAux_newline]
        conv_lhs => rw [h1']
        simp
      · rw [lastLineAux_newline]; exact h2
      · right
        rcases h3 with h3 | ⟨ys, h3⟩
        · exact ⟨acc, by simp [h3]⟩
        · exact ⟨acc ++ '\n' :: ys, by simp [h3]⟩
    · have h' : '\n' ∉ acc ++ [c] := by
        intro hm
        rcases List.mem_append.mp hm with hm | hm
        · exact h hm
        · exact hc (List.mem_singleton.mp hm).symm
      obtain ⟨pre, h1, h2, h3⟩ := ih (acc ++ [c]) h'
      refine ⟨pre, ?_, ?_, h3⟩
      · rw [lastLineAux_other acc c cs hc]
        rw [← h1]
        simp
      · rw [lastLineAux_other acc c cs hc]; exact h2

/-- The current line returned by `line_of_error` is exactly the portion of
the read text after the last newline. -/
lemma lastLine_split (l : Text) :
    ∃ pre, l = pre ++ lastLine l ∧ '\n' ∉ lastLine l ∧
      (pre = [] ∨ ∃ ys, pre = ys ++ ['\n']) := by
  simpa [lastLine] using lastLineAux_split l [] (by simp)

lemma takeWhile_all_append (p : Char → Bool) : ∀ (a b : Text),
    (∀ x ∈ a, p x = true) → (∀ c, b.head? = some c → p c = false) →
    (a ++ b).takeWhile p = a := by
  intro a
  induction a with
  | nil =>
    intro b _ hb
    cases b with
    | nil => rfl
    | cons c bs => simp [List.takeWhile, hb c rfl]
  | cons x xs ih =>
    intro b ha hb
    have hx : p x = true := ha x (List.mem_cons_self _ _)
    have hxs : ∀ y ∈ xs, p y = true := fun y hy => ha y (List.mem_cons_of_mem _ hy)
    simp [List.takeWhile, hx, ih b hxs hb]

/-- Length of the current line: the number of characters after the last
newline, computed independently by reversing and taking while not-newline. -/
lemma lastLine_length_eq (l : Text) :
    (lastLine l).length = (l.reverse.takeWhile (fun c => c != '\n')).length := by
  obtain ⟨pre, h1, h2, h3⟩ := lastLine_split l
  have hrev : l.reverse = (lastLine l).reverse ++ pre.reverse := by
    conv_lhs => rw [h1]
    rw [List.reverse_append]
  rw [hrev, takeWhile_all_append]
  · simp
  · intro x hx
    have hx' : x ∈ lastLine l := List.mem_reverse.mp hx
    have : x ≠ '\n' := fun he => h2 (he ▸ hx')
    simpa using this
  · intro c hc
    rcases h3 with h3 | ⟨ys, h3⟩
    · subst h3; simp at hc
    · subst h3
      rw [List.reverse_append] at hc
      simp at hc
      subst hc
      simp

lemma drop_take_one (file : Text) (k : Nat) (h : k < file.length) :
    (file.drop k).take 1 = [file.get ⟨k, h⟩] := by
  rw [List.drop_eq_getElem_cons h]
  rfl

/-- C3 counterexample: the Locator does not read "up to byte_offset bytes":
text mode translates newlines first.  On the raw bytes "a\r\nbc" at offset
4 the program reads the translated "a\nbc" (consuming all five bytes),
reporting column 3, current line "bc" and an empty offending character —
while the claim's byte-limited reading of the first four bytes "a\r\nb"
predicts column 2, line prefix "b", and offending character 'c' (the byte
at offset 4). -/
theorem C3_locator_counterexample :
    line_of_error ("a\r\nbc".toList) 4 =
      { charNo := 3, lineNo := 2, line := "bc".toList, char := [] } ∧
    (line_of_error ("a\r\nbc".toList) 4).charNo ≠ 2 ∧
    (line_of_error ("a\r\nbc".toList) 4).line ≠ ['b'] ∧
    (line_of_error ("a\r\nbc".toList) 4).char ≠ (("a\r\nbc".toList).drop 4).take 1 := by
  decide

/-- C3 amended: for every file and every offset within the length of the
universal-newline-translated stream, the Locator takes the first offset
characters of the translated text and returns the line number as one plus
the count of newlines in the text read, the line prefix as the portion of
the read text after the last newline, the column as the prefix length plus
one, and the offending character as exactly the one further character of
the translated stream. -/
theorem C3_amended_locator (file : Text) (k : Nat)
    (h : k < (translateNewlines file).length) :
    (line_of_error file k).lineNo = ((translateNewlines file).take k).count '\n' + 1 ∧
    (∃ pre, (translateNewlines file).take k = pre ++ (line_of_error file k).line ∧
      '\n' ∉ (line_of_error file k).line ∧ (pre = [] ∨ ∃ ys, pre = ys ++ ['\n'])) ∧
    (line_of_error file k).charNo = (line_of_error file k).line.length + 1 ∧
    (line_of_error file k).char = [(translateNewlines file).get ⟨k, h⟩] := by
  refine ⟨rfl, ?_, rfl, drop_take_one (translateNewlines file) k h⟩
  simpa [line_of_error] using lastLine_split ((translateNewlines file).take k)

/-- Witness for C3 amended on the CRLF file "a\r\nbc" at offset 3. -/
theorem C3_amended_locator_witness :
    3 < (translateNewlines ("a\r\nbc".toList)).length ∧
    ((line_of_error ("a\r\nbc".toList) 3).lineNo =
        ((translateNewlines ("a\r\nbc".toList)).take 3).count '\n' + 1 ∧
      (∃ pre, (translateNewlines ("a\r\nbc".toList)).take 3 =
          pre ++ (line_of_error ("a\r\nbc".toList) 3).line ∧
        '\n' ∉ (line_of_error ("a\r\nbc".toList) 3).line ∧
        (pre = [] ∨ ∃ ys, pre = ys ++ ['\n'])) ∧
      (line_of_error ("a\r\nbc".toList) 3).charNo =
        (line_of_error ("a\r\nbc".toList) 3).line.length + 1 ∧
      (line_of_error ("a\r\nbc".toList) 3).char =
        [(translateNewlines ("a\r\nbc".toList)).get ⟨3, by decide⟩]) :=
  ⟨by decide, C3_amended_locator ("a\r\nbc".toList) 3 (by decide)⟩

/-- C8: every template-synthesized report is the fixed three-line
tab-separated header (file name; the byte size divided by 1024 and rounded
to the nearest whole number, with " kB"; the UTC timestamp rendered as
zero-padded YYYY-MM-DD HH:MM:SS), a blank line, and the message body.  The
rounding conjuncts say the displayed kilobyte figure is a nearest integer
to bytes/1024. -/
theorem C8_template_report (filename : Text) (bytes : Nat) (t : UTCTime) (message : Text) :
    render filename bytes t message =
      "File Name: \t ".toList ++ filename ++ "\nFile Size: \t ".toList
        ++ natRepr (formatFilesizeKB bytes) ++ " kB\nTime (UTC): \t ".toList
        ++ (zeroPad 4 (natRepr t.year) ++ "-".toList ++ zeroPad 2 (natRepr t.month)
            ++ "-".toList ++ zeroPad 2 (natRepr t.day) ++ " ".toList
            ++ zeroPad 2 (natRepr t.hour) ++ ":".toList ++ zeroPad 2 (natRepr t.minute)
            ++ ":".toList ++ zeroPad 2 (natRepr t.second))
        ++ "\n\n".toList ++ message ∧
    2048 * formatFilesizeKB bytes ≤ 2 * bytes + 1024 ∧
    2 * bytes ≤ 2048 * formatFilesizeKB bytes + 1024 := by
  refine ⟨rfl, ?_, ?_⟩ <;>
  · simp only [formatFilesizeKB]
    split_ifs <;> omega

/-- C9: formatting the same filename, file size and message at two instants
yields two reports that agree outside the timestamp field: both decompose
around their timestamps with identical prefix and suffix text. -/
theorem C9_reports_differ_only_in_timestamp (filename : Text) (bytes : Nat)
    (message : Text) (t1 t2 : UTCTime) :
    ∃ pre post,
      render filename bytes t1 message = pre ++ strftime t1 ++ post ∧
      render filename bytes t2 message = pre ++ strftime t2 ++ post := by
  refine ⟨"File Name: \t ".toList ++ filename ++ "\nFile Size: \t ".toList
    ++ natRepr (formatFilesizeKB bytes) ++ " kB\nTime (UTC): \t ".toList,
    "\n\n".toList ++ message, ?_, ?_⟩ <;>
  simp [render, List.append_assoc]

/-- C1: the validation classifier picks its branch in the fixed precedence
order of the source: a non-zero exit code always sets the template flag (it
never passes the raw log through, whatever stdout and the log are); with
exit code 0, a stdout beginning with "ERROR: " gives the template with
stdout verbatim for any log; otherwise a log matching the leading error
count pattern gives the template with the log verbatim; otherwise the
template is bypassed and the raw log text is the final report. -/
theorem C1_classifier_precedence (file : Text) (res : ProcessOutcome) (log : Option Text)
    (filename : Text) (bytes : Nat) (t : UTCTime) (lg : Text) :
    (res.returncode ≠ 0 → ∀ s l, classify file { res with stdout := s } l ≠ .ok none) ∧
    (res.returncode = 0 → startsWithText ("ERROR: ".toList) res.stdout = true →
      classify file res log = .ok (some res.stdout)) ∧
    (res.returncode = 0 → startsWithText ("ERROR: ".toList) res.stdout = false →
      errorCountMatch lg = true → classify file res (some lg) = .ok (some lg)) ∧
    (res.returncode = 0 → startsWithText ("ERROR: ".toList) res.stdout = false →
      errorCountMatch lg = false →
      classify file res (some lg) = .ok none ∧
      validate file filename bytes t res (some lg) = .ok lg) := by
  refine ⟨?_, ?_, ?_, ?_⟩
  · intro h s l
    simp only [classify]
    split
    · split
      · split <;> simp
      · simp
    · simp_all
  · intro h hpre
    simp at hpre
    simp [classify, h, hpre]
  · intro h hpre hcnt
    simp at hpre
    simp [classify, h, hpre, hcnt]
  · intro h hpre hcnt
    simp at hpre
    constructor
    · simp [classify, h, hpre, hcnt]
    · simp [validate, classify, h, hpre, hcnt]

/-- Witness for C1: each precedence branch exercised at a concrete
process outcome. -/
theorem C1_classifier_precedence_witness :
    classify [] ⟨1, [], []⟩ none ≠ .ok none ∧
    classify [] ⟨0, "ERROR: bad input".toList, []⟩ none =
      .ok (some ("ERROR: bad input".toList)) ∧
    classify [] ⟨0, [], []⟩ (some ("3 error(s) found in file x.ags".toList)) =
      .ok (some ("3 error(s) found in file x.ags".toList)) ∧
    validate [] [] 0 ⟨2024, 1, 1, 0, 0, 0⟩ ⟨0, [], []⟩ (some ("metadata log".toList)) =
      .ok ("metadata log".toList) :=
  ⟨(C1_classifier_precedence [] ⟨1, [], []⟩ none [] 0 ⟨2024, 1, 1, 0, 0, 0⟩ []).1
      (by decide) [] none,
    (C1_classifier_precedence [] ⟨0, "ERROR: bad input".toList, []⟩ none [] 0
        ⟨2024, 1, 1, 0, 0, 0⟩ []).2.1 rfl (by decide),
    (C1_classifier_precedence [] ⟨0, [], []⟩ none [] 0 ⟨2024, 1, 1, 0, 0, 0⟩
        ("3 error(s) found in file x.ags".toList)).2.2.1 rfl (by decide) (by decide),
    ((C1_classifier_precedence [] ⟨0, [], []⟩ none [] 0 ⟨2024, 1, 1, 0, 0, 0⟩
        ("metadata log".toList)).2.2.2 rfl (by decide) (by decide)).2⟩

/-- C2 counterexample: an outcome with exit code 0, stdout without the
"ERROR: " prefix and an absent sidecar log does not terminate in a string
report; the classification faults (Python raises `TypeError` from
`re.match` on `None`). -/
theorem C2_no_fault_counterexample :
    validate [] [] 0 ⟨2024, 1, 1, 0, 0, 0⟩ ⟨0, [], []⟩ none = .error Fault.typeError ∧
    ¬ ∃ s, validate [] [] 0 ⟨2024, 1, 1, 0, 0, 0⟩ ⟨0, [], []⟩ none = .ok s := by
  constructor
  · rfl
  · rintro ⟨s, hs⟩
    have h0 : validate [] [] 0 ⟨2024, 1, 1, 0, 0, 0⟩ ⟨0, [], []⟩ none =
        .error Fault.typeError := rfl
    rw [h0] at hs
    exact Except.noConfusion hs

/-- C2 amended: validation terminates in a string report for every
ProcessOutcome in which (a) the sidecar log is present whenever the exit
code is 0 and stdout lacks the "ERROR: " prefix, and (b) whenever the exit
code is non-zero and stderr carries the UnicodeDecodeError marker, stderr
also contains a parsable "in position <digits>:" occurrence. -/
theorem C2_amended_always_a_report (file filename : Text) (bytes : Nat) (t : UTCTime)
    (res : ProcessOutcome) (log : Option Text)
    (h1 : res.returncode ≠ 0 →
      containsText res.stderr ("UnicodeDecodeError:".toList) = true →
      (searchPosition res.stderr).isSome = true)
    (h2 : res.returncode = 0 → startsWithText ("ERROR: ".toList) res.stdout = false →
      log.isSome = true) :
    ∃ s, validate file filename bytes t res log = .ok s := by
  by_cases hrc : res.returncode = 0
  · by_cases hpre : startsWithText ("ERROR: ".toList) res.stdout = true
    · refine ⟨render filename bytes t res.stdout, ?_⟩
      simp at hpre
      simp [validate, classify, hrc, hpre]
    · have hlog := h2 hrc (by simpa using hpre)
      obtain ⟨lg, hlg⟩ := Option.isSome_iff_exists.mp hlog
      subst hlg
      simp at hpre
      by_cases hcnt : errorCountMatch lg = true
      · exact ⟨render filename bytes t lg, by simp [validate, classify, hrc, hpre, hcnt]⟩
      · exact ⟨lg, by simp [validate, classify, hrc, hpre, hcnt]⟩
  · by_cases hud : containsText res.stderr ("UnicodeDecodeError:".toList) = true
    · obtain ⟨k, hk⟩ := Option.isSome_iff_exists.mp (h1 hrc hud)
      refine ⟨render filename bytes t (unicodeMessageBody file k), ?_⟩
      simp at hud
      simp [validate, classify, hrc, hud, get_unicode_message, hk]
    · refine ⟨render filename bytes t ("ERROR: ".toList ++ res.stderr), ?_⟩
      simp at hud
      simp [validate, classify, hrc, hud]

/-- Witness for C2 amended: a non-zero exit with a plain stderr yields a
report. -/
theorem C2_amended_always_a_report_witness :
    (((⟨1, [], "boom".toList⟩ : ProcessOutcome).returncode ≠ 0 →
      containsText (⟨1, [], "boom".toList⟩ : ProcessOutcome).stderr
        ("UnicodeDecodeError:".toList) = true →
      (searchPosition (⟨1, [], "boom".toList⟩ : ProcessOutcome).stderr).isSome = true)) ∧
    ∃ s, validate [] [] 0 ⟨2024, 1, 1, 0, 0, 0⟩ ⟨1, [], "boom".toList⟩ none = .ok s :=
  ⟨by decide,
    C2_amended_always_a_report [] [] 0 ⟨2024, 1, 1, 0, 0, 0⟩ ⟨1, [], "boom".toList⟩ none
      (by decide) (by decide)⟩

/-- C4: conversion classification: non-zero exit gives message
"ERROR: " + stderr, the partial output deleted and no output path; a stdout
with the "ERROR: " prefix gives message = stdout, the same deletion and no
output path; otherwise the message is the SUCCESS line, the returned path
is the input stem with the opposite extension, and nothing is deleted.  In
every branch the returned log is the message wrapped through the Report
Formatter. -/
theorem C4_convert_classification (stem suffix : Text) (bytes : Nat) (t : UTCTime)
    (res : ProcessOutcome) :
    (res.returncode ≠ 0 →
      convert stem suffix bytes t res =
        { outPath := none
          log := render (stem ++ suffix) bytes t ("ERROR: ".toList ++ res.stderr)
          deleted := true }) ∧
    (res.returncode = 0 → startsWithText ("ERROR: ".toList) res.stdout = true →
      convert stem suffix bytes t res =
        { outPath := none
          log := render (stem ++ suffix) bytes t res.stdout
          deleted := true }) ∧
    (res.returncode = 0 → startsWithText ("ERROR: ".toList) res.stdout = false →
      convert stem suffix bytes t res =
        { outPath := some (stem ++ oppositeExt suffix)
          log := render (stem ++ suffix) bytes t
            ("SUCCESS: ".toList ++ (stem ++ suffix) ++ " converted to ".toList
              ++ (stem ++ oppositeExt suffix))
          deleted := false }) ∧
    (∃ m, (convert stem suffix bytes t res).log = render (stem ++ suffix) bytes t m) := by
  refine ⟨?_, ?_, ?_, ?_⟩
  · intro h
    simp [convert, h]
  · intro h hpre
    simp at hpre
    simp [convert, h, hpre]
  · intro h hpre
    simp at hpre
    simp [convert, h, hpre, oppositeExt]
  · by_cases h : res.returncode = 0
    · by_cases hpre : startsWithText ("ERROR: ".toList) res.stdout = true
      · refine ⟨res.stdout, ?_⟩
        simp at hpre
        simp [convert, h, hpre]
      · refine ⟨"SUCCESS: ".toList ++ (stem ++ suffix) ++ " converted to ".toList
          ++ (stem ++ oppositeExt suffix), ?_⟩
        simp at hpre
        simp [convert, h, hpre, oppositeExt]
    · exact ⟨"ERROR: ".toList ++ res.stderr, by simp [convert, h]⟩

/-- Witness for C4: the three conversion branches at concrete outcomes. -/
theorem C4_convert_classification_witness :
    convert ("doc".toList) (".ags".toList) 0 ⟨2024, 1, 1, 0, 0, 0⟩ ⟨1, [], "se".toList⟩ =
      { outPath := none
        log := render ("doc".toList ++ ".ags".toList) 0 ⟨2024, 1, 1, 0, 0, 0⟩
          ("ERROR: ".toList ++ "se".toList)
        deleted := true } ∧
    convert ("doc".toList) (".ags".toList) 0 ⟨2024, 1, 1, 0, 0, 0⟩
        ⟨0, "ERROR: no".toList, []⟩ =
      { outPath := none
        log := render ("doc".toList ++ ".ags".toList) 0 ⟨2024, 1, 1, 0, 0, 0⟩
          ("ERROR: no".toList)
        deleted := true } ∧
    convert ("doc".toList) (".ags".toList) 0 ⟨2024, 1, 1, 0, 0, 0⟩ ⟨0, "fine".toList, []⟩ =
      { outPath := some ("doc".toList ++ oppositeExt (".ags".toList))
        log := render ("doc".toList ++ ".ags".toList) 0 ⟨2024, 1, 1, 0, 0, 0⟩
          ("SUCCESS: ".toList ++ ("doc".toList ++ ".ags".toList) ++ " converted to ".toList
            ++ ("doc".toList ++ oppositeExt (".ags".toList)))
        deleted := false } ∧
    ∃ m, (convert ("doc".toList) (".ags".toList) 0 ⟨2024, 1, 1, 0, 0, 0⟩
        ⟨0, "fine".toList, []⟩).log =
      render ("doc".toList ++ ".ags".toList) 0 ⟨2024, 1, 1, 0, 0, 0⟩ m :=
  ⟨(C4_convert_classification ("doc".toList) (".ags".toList) 0 ⟨2024, 1, 1, 0, 0, 0⟩
      ⟨1, [], "se".toList⟩).1 (by decide),
    (C4_convert_classification ("doc".toList) (".ags".toList) 0 ⟨2024, 1, 1, 0, 0, 0⟩
      ⟨0, "ERROR: no".toList, []⟩).2.1 rfl (by decide),
    (C4_convert_classification ("doc".toList) (".ags".toList) 0 ⟨2024, 1, 1, 0, 0, 0⟩
      ⟨0, "fine".toList, []⟩).2.2.1 rfl (by decide),
    (C4_convert_classification ("doc".toList) (".ags".toList) 0 ⟨2024, 1, 1, 0, 0, 0⟩
      ⟨0, "fine".toList, []⟩).2.2.2⟩

/-- C5: for a non-zero exit whose stderr carries the decoding-failure
marker, the classifier extracts the byte offset via the
"position <digits>:" pattern, runs the Encoding-Error Locator, and builds
the message exactly as the quoted f-string; in particular for offset 0 the
message starts with the text ERROR: Unreadable character "<char>" at
position 1 on line: 1. -/
theorem C5_unicode_error_message (file : Text) (res : ProcessOutcome) (log : Option Text)
    (k : Nat)
    (h1 : res.returncode ≠ 0)
    (h2 : containsText res.stderr ("UnicodeDecodeError:".toList) = true)
    (h3 : searchPosition res.stderr = some k) :
    classify file res log =
      .ok (some ("ERROR: Unreadable character \"".toList ++ (line_of_error file k).char
        ++ "\" at position ".toList ++ natRepr (line_of_error file k).charNo
        ++ " on line: ".toList ++ natRepr (line_of_error file k).lineNo
        ++ "\nStarting: ".toList ++ (line_of_error file k).line ++ "\n\n".toList)) ∧
    (k = 0 →
      ∃ rest, classify file res log =
        .ok (some (("ERROR: Unreadable character \"".toList
          ++ (translateNewlines file).take 1
          ++ "\" at position 1 on line: 1".toList) ++ rest))) := by
  have hmain : classify file res log = .ok (some (unicodeMessageBody file k)) := by
    have h2' := h2
    simp at h2'
    simp [classify, h1, h2', get_unicode_message, h3]
  constructor
  · rw [hmain]
    rfl
  · intro hk
    subst hk
    refine ⟨"\nStarting: \n\n".toList, ?_⟩
    rw [hmain]
    have hx : ∀ x : Text,
        "ERROR: Unreadable character \"".toList ++ x ++ "\" at position ".toList
          ++ natRepr 1 ++ " on line: ".toList ++ natRepr 1 ++ "\nStarting: ".toList
          ++ ([] : Text) ++ "\n\n".toList
        = ("ERROR: Unreadable character \"".toList ++ x
            ++ "\" at position 1 on line: 1".toList) ++ "\nStarting: \n\n".toList := by
      intro x
      have h1' : natRepr 1 = ['1'] := by decide
      rw [h1']
      simp [List.append_assoc]
    exact congrArg (fun z => Except.ok (some z)) (hx ((translateNewlines file).take 1))

/-- Witness for C5 on a concrete binary file and a position-0 decode
error. -/
theorem C5_unicode_error_message_witness :
    ((1 : Int) ≠ 0) ∧
    containsText ("UnicodeDecodeError: bad byte in position 0: oops".toList)
      ("UnicodeDecodeError:".toList) = true ∧
    searchPosition ("UnicodeDecodeError: bad byte in position 0: oops".toList) = some 0 ∧
    (classify ("XY".toList)
        ⟨1, [], "UnicodeDecodeError: bad byte in position 0: oops".toList⟩ none =
      .ok (some ("ERROR: Unreadable character \"".toList
        ++ (line_of_error ("XY".toList) 0).char
        ++ "\" at position ".toList ++ natRepr (line_of_error ("XY".toList) 0).charNo
        ++ " on line: ".toList ++ natRepr (line_of_error ("XY".toList) 0).lineNo
        ++ "\nStarting: ".toList ++ (line_of_error ("XY".toList) 0).line
        ++ "\n\n".toList)) ∧
    ((0 : Nat) = 0 →
      ∃ rest, classify ("XY".toList)
          ⟨1, [], "UnicodeDecodeError: bad byte in position 0: oops".toList⟩ none =
        .ok (some (("ERROR: Unreadable character \"".toList
          ++ (translateNewlines ("XY".toList)).take 1
          ++ "\" at position 1 on line: 1".toList) ++ rest)))) :=
  ⟨by decide, by decide, by decide,
    C5_unicode_error_message ("XY".toList)
      ⟨1, [], "UnicodeDecodeError: bad byte in position 0: oops".toList⟩ none 0
      (by decide) (by decide) (by decide)⟩

/-- C6 counterexample: for the file "ab\ncd" and the decode failure at byte
offset 4 the produced message reports column 2 (the offset within the
current line), not 4 minus the one newline among the first four bytes,
which is 3 as the claim's formula demands. -/
theorem C6_column_formula_counterexample :
    classify ("ab\ncd".toList)
        ⟨1, [], "UnicodeDecodeError: bad byte in position 4: oops".toList⟩ none =
      .ok (some (unicodeMessageBody ("ab\ncd".toList) 4)) ∧
    (line_of_error ("ab\ncd".toList) 4).charNo = 2 ∧
    4 - (("ab\ncd".toList).take 4).count '\n' = 3 ∧
    (line_of_error ("ab\ncd".toList) 4).charNo ≠
      4 - (("ab\ncd".toList).take 4).count '\n' :=
  ⟨rfl, by decide, by decide, by decide⟩

/-- C6 amended: for a non-zero exit with the decode marker and extracted
offset K, the produced message is the Locator rendering, and the column it
reports equals one plus the number of characters after the last newline
among the first K characters of the universal-newline-translated text the
program reads (computed independently by reversing the read prefix and
taking the newline-free run); the Locator is a pure function of the file
bytes and the offset. -/
theorem C6_amended_column_is_offset_in_line (file : Text) (res : ProcessOutcome)
    (log : Option Text) (k : Nat)
    (h1 : res.returncode ≠ 0)
    (h2 : containsText res.stderr ("UnicodeDecodeError:".toList) = true)
    (h3 : searchPosition res.stderr = some k) :
    classify file res log = .ok (some (unicodeMessageBody file k)) ∧
    (line_of_error file k).charNo =
      (((translateNewlines file).take k).reverse.takeWhile (fun c => c != '\n')).length
        + 1 := by
  constructor
  · have h2' := h2
    simp at h2'
    simp [classify, h1, h2', get_unicode_message, h3]
  · show (lastLine ((translateNewlines file).take k)).length + 1 = _
    rw [lastLine_length_eq]

/-- Witness for C6 amended at the CRLF file "a\r\nbc" and offset 4: the
program reports column 3 there, as does the translated-stream formula. -/
theorem C6_amended_column_is_offset_in_line_witness :
    ((1 : Int) ≠ 0) ∧
    containsText ("UnicodeDecodeError: bad byte in position 4: oops".toList)
      ("UnicodeDecodeError:".toList) = true ∧
    searchPosition ("UnicodeDecodeError: bad byte in position 4: oops".toList) = some 4 ∧
    (classify ("a\r\nbc".toList)
        ⟨1, [], "UnicodeDecodeError: bad byte in position 4: oops".toList⟩ none =
      .ok (some (unicodeMessageBody ("a\r\nbc".toList) 4)) ∧
    (line_of_error ("a\r\nbc".toList) 4).charNo =
      (((translateNewlines ("a\r\nbc".toList)).take 4).reverse.takeWhile
        (fun c => c != '\n')).length + 1) :=
  ⟨by decide, by decide, by decide,
    C6_amended_column_is_offset_in_line ("a\r\nbc".toList)
      ⟨1, [], "UnicodeDecodeError: bad byte in position 4: oops".toList⟩ none 4
      (by decide) (by decide) (by decide)⟩

/-- C7 counterexample: a log that both begins with the "<N> error(s) found
in file" pattern and contains "All checks passed!" is classified through
the template (the error-count branch wins), so uses_template is true, not
false as the claim requires for every log containing the substring. -/
theorem C7_valid_log_counterexample :
    log_is_valid ("0 error(s) found in file All checks passed!".toList) = true ∧
    classify [] ⟨0, [], []⟩
        (some ("0 error(s) found in file All checks passed!".toList)) =
      .ok (some ("0 error(s) found in file All checks passed!".toList)) ∧
    classify [] ⟨0, [], []⟩
        (some ("0 error(s) found in file All checks passed!".toList)) ≠
      .ok none := by
  refine ⟨by decide, rfl, ?_⟩
  intro hs
  have h0 : classify [] ⟨0, [], []⟩
      (some ("0 error(s) found in file All checks passed!".toList)) =
    .ok (some ("0 error(s) found in file All checks passed!".toList)) := rfl
  rw [h0] at hs
  simp at hs

/-- C7 amended: with exit code 0, stdout lacking the "ERROR: " prefix, and
a log that does not match the leading error-count pattern but contains
"All checks passed!", the classifier bypasses the template, the returned
report is the raw log unchanged, and log_is_valid holds of it; log_is_valid
of any report is true exactly when the report contains the exact substring
"All checks passed!". -/
theorem C7_amended_valid_passthrough (file filename : Text) (bytes : Nat) (t : UTCTime)
    (res : ProcessOutcome) (lg : Text)
    (h1 : res.returncode = 0)
    (h2 : startsWithText ("ERROR: ".toList) res.stdout = false)
    (h3 : errorCountMatch lg = false)
    (h4 : containsText lg ("All checks passed!".toList) = true) :
    classify file res (some lg) = .ok none ∧
    validate file filename bytes t res (some lg) = .ok lg ∧
    log_is_valid lg = true ∧
    (∀ r : Text, log_is_valid r = true ↔ containsText r ("All checks passed!".toList) = true) := by
  refine ⟨?_, ?_, h4, fun r => Iff.rfl⟩
  · have h2' := h2
    simp at h2'
    simp [classify, h1, h2', h3]
  · have h2' := h2
    simp at h2'
    simp [validate, classify, h1, h2', h3]

/-- Witness for C7 amended on a concrete metadata log. -/
theorem C7_amended_valid_passthrough_witness :
    ((0 : Int) = 0) ∧
    startsWithText ("ERROR: ".toList) ("checking...".toList) = false ∧
    errorCountMatch ("metadata\nAll checks passed!".toList) = false ∧
    containsText ("metadata\nAll checks passed!".toList)
      ("All checks passed!".toList) = true ∧
    (classify [] ⟨0, "checking...".toList, []⟩
        (some ("metadata\nAll checks passed!".toList)) = .ok none ∧
    validate [] ("example1.ags".toList) 0 ⟨2024, 1, 1, 0, 0, 0⟩
        ⟨0, "checking...".toList, []⟩ (some ("metadata\nAll checks passed!".toList)) =
      .ok ("metadata\nAll checks passed!".toList) ∧
    log_is_valid ("metadata\nAll checks passed!".toList) = true ∧
    (∀ r : Text, log_is_valid r = true ↔
      containsText r ("All checks passed!".toList) = true)) :=
  ⟨rfl, by decide, by decide, by decide,
    C7_amended_valid_passthrough [] ("example1.ags".toList) 0 ⟨2024, 1, 1, 0, 0, 0⟩
      ⟨0, "checking...".toList, []⟩ ("metadata\nAll checks passed!".toList)
      rfl (by decide) (by decide) (by decide)⟩

/-- C10: get_unicode_message is total only when stderr holds a parsable
"in position <digits>:" occurrence: whenever the exit code is non-zero and
stderr contains "UnicodeDecodeError:" but the regex search finds no match,
the group access faults, and validate raises (AttributeError) instead of
returning a report string. -/
theorem C10_missing_position_pattern_faults (file filename : Text) (bytes : Nat)
    (t : UTCTime) (res : ProcessOutcome) (log : Option Text)
    (h1 : res.returncode ≠ 0)
    (h2 : containsText res.stderr ("UnicodeDecodeError:".toList) = true)
    (h3 : searchPosition res.stderr = none) :
    get_unicode_message res.stderr file = none ∧
    validate file filename bytes t res log = .error Fault.attributeError := by
  have hg : get_unicode_message res.stderr file = none := by
    simp [get_unicode_message, h3]
  refine ⟨hg, ?_⟩
  have h2' := h2
  simp at h2'
  simp [validate, classify, h1, h2', hg]

/-- Witness for C10 on a marker-bearing stderr with no position pattern. -/
theorem C10_missing_position_pattern_faults_witness :
    ((1 : Int) ≠ 0) ∧
    containsText ("UnicodeDecodeError: truncated".toList)
      ("UnicodeDecodeError:".toList) = true ∧
    searchPosition ("UnicodeDecodeError: truncated".toList) = none ∧
    (get_unicode_message ("UnicodeDecodeError: truncated".toList) [] = none ∧
    validate [] [] 0 ⟨2024, 1, 1, 0, 0, 0⟩ ⟨1, [], "UnicodeDecodeError: truncated".toList⟩
        none = .error Fault.attributeError) :=
  ⟨by decide, by decide, by decide,
    C10_missing_position_pattern_faults [] [] 0 ⟨2024, 1, 1, 0, 0, 0⟩
      ⟨1, [], "UnicodeDecodeError: truncated".toList⟩ none
      (by decide) (by decide) (by decide)⟩

end Ags
